import Mathlib

/-!
Verification development for the content-aggregation and citation-resolution
pipeline of the AI-Research-Assistant application (src/app.py).

The Python source is shallowly embedded: pure fragments become Lean functions,
the network-facing extractor and the language-model calls become explicit
oracle parameters, and the regular-expression substitutions of the citation
normalizer are embedded as character-list scanners that replicate the exact
match semantics of the patterns used in the source.
-/

/- ### Constants (src/app.py lines 37-43) -/

def QUICK_SEARCH_RESULTS : Nat := 7
def DEEP_SEARCH_RESULTS : Nat := 18
def MAX_CONTENT_LENGTH_PER_SITE : Nat := 15000
def MAX_TOTAL_CONTENT_LENGTH : Nat := 200000
def REPORT_STORE_MAX_ITEMS : Nat := 100
def SOURCE_PREVIEW_LENGTH : Nat := 300

/- ### Aggregator: scrape_urls (src/app.py lines 173-184)

One Source record per successful extraction, as built by
scraped_data.append({"id": len(scraped_data), "url": url, "text": content}). -/

structure Source where
  id : Nat
  url : String
  text : String
deriving DecidableEq, Repr

/-- Loop state of scrape_urls: scraped_data, total_content_length and
urls_attempted are the three locals of the Python function; stopped models the
break statement; calls records the urls actually passed to scrape_url (the
arguments of the scrape_url(url) call site), for observation only: no branch
of the loop reads it. -/
structure ScrapeState where
  scraped_data : List Source
  total_content_length : Nat
  urls_attempted : List String
  calls : List String
  stopped : Bool
deriving DecidableEq, Repr

/-- One iteration of the for-loop of scrape_urls.  The Python line
"if url in urls_attempted: continue; urls_attempted.add(url)" places BOTH
statements in the if-body, so urls_attempted.add(url) sits after continue and
never executes: no branch of the loop ever extends urls_attempted.  The
embedding reproduces exactly that: the membership test is present, but no
update of urls_attempted is performed anywhere. -/
def scrapeStep (scrape : String → Option String) (st : ScrapeState) (url : String) : ScrapeState :=
  if st.stopped then st
  else if url ∈ st.urls_attempted then st
  else if MAX_TOTAL_CONTENT_LENGTH ≤ st.total_content_length then { st with stopped := true }
  else
    let st1 := { st with calls := st.calls ++ [url] }
    match scrape url with
    | some content =>
      { st1 with
          scraped_data := st1.scraped_data ++
            [{ id := st1.scraped_data.length, url := url, text := content }],
          total_content_length := st1.total_content_length + content.length }
    | none => st1

def initScrapeState : ScrapeState :=
  { scraped_data := [], total_content_length := 0, urls_attempted := [], calls := [], stopped := false }

/-- Full final state of scrape_urls, with the extractor scrape_url abstracted
as an oracle from url to optional extracted text. -/
def scrape_urls_state (scrape : String → Option String) (urls : List String) : ScrapeState :=
  urls.foldl (scrapeStep scrape) initScrapeState

/-- scrape_urls: the returned scraped_data list. -/
def scrape_urls (scrape : String → Option String) (urls : List String) : List Source :=
  (scrape_urls_state scrape urls).scraped_data

/-- A string of n identical characters, used to realize concrete extracted
texts of a prescribed length in examples. -/
def mkText (n : Nat) : String :=
  String.mk (List.replicate n 'a')

/- ### Extractor: scrape_url (src/app.py lines 103-170)

The two network fetches are abstracted as oracles: traf is the text that the
trafilatura fetch+extract step produced for the url (none when fetch_url
returned None, extraction returned None, or an exception was raised), and
fetch is the outcome of the requests.get call of the BeautifulSoup fallback.
A RawBody carries len(response.content) together with the paragraph text
joined per candidate container (in the order of the potential_containers
list, one entry per container that is present and has p tags; the soup
document itself is the last candidate) and the text joined over all p tags
of the document. -/

structure RawBody where
  size : Nat
  containers : List String
  allParagraphs : String
deriving Repr

inductive FetchResult where
  | timeout
  | httpError (status : Nat)
  | reqError
  | ok (contentType : String) (body : RawBody)

/-- Python str.isspace over the ASCII range, as used by str.strip(). -/
def isPySpace (c : Char) : Bool :=
  c = ' ' || c = '\t' || c = '\n' || c = '\x0b' || c = '\x0c' || c = '\r'

/-- Python s.strip(): whitespace removed from both ends. -/
def pyStrip (s : String) : String :=
  String.mk (((s.data.dropWhile isPySpace).reverse.dropWhile isPySpace).reverse)

/-- Python s[:MAX_CONTENT_LENGTH_PER_SITE]. -/
def pyTruncate (s : String) : String :=
  String.mk (s.data.take MAX_CONTENT_LENGTH_PER_SITE)

/-- Occurrence of the four characters h t m l in sequence, for the check
"'html' not in content_type". -/
def hasHtmlSub : List Char → Bool
  | 'h' :: 't' :: 'm' :: 'l' :: _ => true
  | _ :: rest => hasHtmlSub rest
  | [] => false

/-- "'html' in content_type" after content_type has been lowercased. -/
def containsHtml (ct : String) : Bool :=
  hasHtmlSub (ct.data.map Char.toLower)

/-- The BeautifulSoup fallback of scrape_url (lines 144-170): reject
non-HTML content types and payloads above 7 MB, take the first candidate
container whose joined paragraph text exceeds 200 characters, otherwise all
paragraph text when it exceeds 100 characters, otherwise nothing; timeouts,
HTTP error statuses and request exceptions are caught and become None. -/
def bs4Fallback : FetchResult → Option String
  | .timeout => none
  | .httpError _ => none
  | .reqError => none
  | .ok ct body =>
    if !(containsHtml ct) then none
    else if 7000000 < body.size then none
    else
      match body.containers.find? (fun t => 200 < t.length) with
      | some t => some (pyTruncate (pyStrip t))
      | none =>
        if 100 < body.allParagraphs.length then
          some (pyTruncate (pyStrip body.allParagraphs))
        else none

/-- scrape_url: trafilatura output is accepted only above the 100 character
plausibility threshold; otherwise control falls through to the fallback. -/
def scrape_url (traf : Option String) (fetch : FetchResult) : Option String :=
  match traf with
  | some mc => if 100 < mc.length then some (pyTruncate (pyStrip mc)) else bs4Fallback fetch
  | none => bs4Fallback fetch

/-- Condition under which the trafilatura result is returned directly
(line 129: "if main_content and len(main_content) > 100"). -/
def trafAccepts : Option String → Bool
  | some mc => 100 < mc.length
  | none => false

/-- The rejection conditions named by the specification for the fallback
fetch: network timeout, HTTP error status, non-HTML content type, payload
above 7 MB. -/
def fetchRejected : FetchResult → Bool
  | .timeout => true
  | .httpError _ => true
  | .reqError => false
  | .ok ct body => !(containsHtml ct) || decide (7000000 < body.size)

/- ### Deep synthesis: generate_chunked_deep_research (src/app.py lines 231-311)
and its use in synthesize_with_gemini (lines 441-446)

A model invocation is abstracted by its outcome: ok t when the response has
candidates whose content has parts (response.text = t), bad otherwise. -/

inductive GenResponse where
  | ok (text : String)
  | bad

/-- generate_chunked_deep_research: the first chunk is mandatory (None when it
fails), the second and third chunks are appended after a blank line only when
they produced candidates with parts. -/
def generate_chunked_deep_research (r1 r2 r3 : GenResponse) : Option String :=
  match r1 with
  | .bad => none
  | .ok t1 =>
    let t := t1
    let t := match r2 with
      | .ok t2 => t ++ "\n\n" ++ t2
      | .bad => t
    let t := match r3 with
      | .ok t3 => t ++ "\n\n" ++ t3
      | .bad => t
    some t

/-- The deep branch of synthesize_with_gemini (lines 443-446): a None or
empty ("if not generated_text_raw") chunked result is reported as the error
"Failed to generate deep research content"; otherwise the raw text goes on
to citation processing. -/
def synthesize_deep_raw (r1 r2 r3 : GenResponse) : Except String String :=
  match generate_chunked_deep_research r1 r2 r3 with
  | none => Except.error "Failed to generate deep research content"
  | some t =>
    if t.length = 0 then Except.error "Failed to generate deep research content"
    else Except.ok t

/- ### Citation normalizer, pre-render pass:
preprocess_llm_text_for_citations (src/app.py lines 194-210)

First substitution: the pattern matching a bracket group of comma-separated
numbers with optional spaces.  Because the character classes of the pattern
are disjoint, its matching is deterministic: after the opening bracket comes
ws* digits+ and then repeatedly either the closing bracket or a comma
followed by ws* digits+; the parser below replicates exactly that.  The
replacer keeps each number stripped (split(',') pieces are \s*digits\s*, so
the isdigit filter keeps all of them) and joins the markers with a single
space (" ".join). -/

def parseGroupTail (fuel : Nat) (acc : List (List Char)) (l : List Char) :
    Option (List (List Char) × List Char) :=
  match fuel with
  | 0 => none
  | fuel + 1 =>
    match l.dropWhile isPySpace with
    | ']' :: rest => some (acc.reverse, rest)
    | ',' :: rest =>
      let r1 := rest.dropWhile isPySpace
      let d := r1.takeWhile Char.isDigit
      if d.isEmpty then none
      else parseGroupTail fuel (d :: acc) (r1.dropWhile Char.isDigit)
    | _ => none

/-- Parse the part of a citation group after the opening bracket; returns the
digit strings of the group and the input remaining after the closing
bracket. -/
def parseCiteGroup (l : List Char) : Option (List (List Char) × List Char) :=
  let l1 := l.dropWhile isPySpace
  let d := l1.takeWhile Char.isDigit
  if d.isEmpty then none
  else parseGroupTail l.length [d] (l1.dropWhile Char.isDigit)

/-- The replacer of the first substitution: " ".join of the single markers. -/
def renderCiteNums (nums : List (List Char)) : List Char :=
  List.intercalate [' '] (nums.map (fun d => '[' :: (d ++ [']'])))

/-- Scan of the first substitution; fuel is consumed one unit per step while
every step consumes at least one input character, so fuel = input length
suffices.  A failed match attempt advances a single character, as the regex
engine does. -/
def sub1Go (fuel : Nat) (l : List Char) : List Char :=
  match fuel, l with
  | 0, _ => []
  | _ + 1, [] => []
  | fuel + 1, '[' :: rest =>
    match parseCiteGroup rest with
    | some (nums, rest2) => renderCiteNums nums ++ sub1Go fuel rest2
    | none => '[' :: sub1Go fuel rest
  | fuel + 1, c :: rest => c :: sub1Go fuel rest

/-- Scan of the second substitution, the pattern of two directly adjacent
single-number markers replaced by the same two markers with one separating
space; matches are non-overlapping and the scan resumes after the second
marker of a match. -/
def sub2Go (fuel : Nat) (l : List Char) : List Char :=
  match fuel, l with
  | 0, _ => []
  | _ + 1, [] => []
  | fuel + 1, '[' :: rest =>
    (match rest.takeWhile Char.isDigit, rest.dropWhile Char.isDigit with
     | d1 :: ds1, ']' :: '[' :: r2 =>
       (match r2.takeWhile Char.isDigit, r2.dropWhile Char.isDigit with
        | d2 :: ds2, ']' :: r4 =>
          ('[' :: ((d1 :: ds1) ++ [']'])) ++ (' ' :: '[' :: ((d2 :: ds2) ++ [']'])) ++
            sub2Go fuel r4
        | _, _ => '[' :: sub2Go fuel rest)
     | _, _ => '[' :: sub2Go fuel rest)
  | fuel + 1, c :: rest => c :: sub2Go fuel rest

/-- preprocess_llm_text_for_citations: split comma groups, then insert a
space between adjacent markers. -/
def preprocess_llm_text_for_citations (s : String) : String :=
  let t1 := sub1Go s.data.length s.data
  String.mk (sub2Go t1.length t1)

/- ### Citation normalizer, post-render binding pass

Both process_citation_markers_in_html (lines 213-228) and the inline
substitution of synthesize_with_gemini (lines 465-474) substitute the same
pattern: a bracketed digit run whose preceding character (in the original
string) is none of the exclamation mark, closing bracket, slash or an ASCII
alphanumeric, and whose following character is not a closing bracket.  The
two call sites differ only in the replacement text. -/

/-- The lookbehind character class of the pattern. -/
def citeBlocked (c : Char) : Bool :=
  c = '!' || c = ']' || c = '/' || c.isAlpha || c.isDigit

/-- The negative lookbehind: satisfied at the start of the input or when the
preceding original character is outside the class. -/
def lookbehindOk : Option Char → Bool
  | none => true
  | some c => !(citeBlocked c)

/-- Python int() on a digit string. -/
def digitsVal (ds : List Char) : Nat :=
  ds.foldl (fun a c => a * 10 + (c.toNat - '0'.toNat)) 0

/-- The zero-based citation index embedded in an anchor for displayed number
n: int(match.group(1)) - 1, an integer (it is -1 for the marker with number
0). -/
def citeIndexOf (n : Nat) : Int := (n : Int) - 1

/-- Replacement of process_citation_markers_in_html (lines 219-221):
num = int(match.group(1)) and the displayed text uses num. -/
def citeAnchorNum (n : Nat) : List Char :=
  ("<sup><a href='#' class='citation-marker' data-citation-index='" ++
    toString (citeIndexOf n) ++ "' aria-label='Citation " ++ toString n ++ "'>[" ++
    toString n ++ "]</a></sup>").data

def replace_citation_html (ds : List Char) : List Char :=
  citeAnchorNum (digitsVal ds)

/-- Replacement of the inline substitution in synthesize_with_gemini
(lines 467-471): the displayed text and label use match.group(1) verbatim,
the index uses int(match.group(1)) - 1, and the replacement carries one
trailing space. -/
def citeAnchorSyn (ds : List Char) : List Char :=
  ("<sup><a href='#' class='citation-marker' data-citation-index='" ++
    toString (citeIndexOf (digitsVal ds)) ++ "' aria-label='Citation " ++
    String.mk ds ++ "'>[" ++ String.mk ds ++ "]</a></sup> ").data

/-- Scan of the citation-marker pattern, parametric in the replacement.
prev is the original character preceding the scan position (none at the
start); after a successful match the scan resumes after the closing bracket,
whose character becomes the new prev.  The digit run is maximal; since the
pattern requires a closing bracket right after the digits, backtracking into
the digit run can never produce a match, so maximal munch is faithful. -/
def citeGo (repl : List Char → List Char) (fuel : Nat) (prev : Option Char) (l : List Char) :
    List Char :=
  match fuel, l with
  | 0, _ => []
  | _ + 1, [] => []
  | fuel + 1, c :: rest =>
    if c = '[' && lookbehindOk prev then
      let ds := rest.takeWhile Char.isDigit
      let rest1 := rest.dropWhile Char.isDigit
      if ds.isEmpty then c :: citeGo repl fuel (some c) rest
      else if rest1.head? == some ']' then
        let rest2 := rest1.tail
        if rest2.head? == some ']' then c :: citeGo repl fuel (some c) rest
        else repl ds ++ citeGo repl fuel (some ']') rest2
      else c :: citeGo repl fuel (some c) rest
    else c :: citeGo repl fuel (some c) rest

def citeScan (repl : List Char → List Char) (prev : Option Char) (l : List Char) : List Char :=
  citeGo repl l.length prev l

/-- Second pass of process_citation_markers_in_html (line 226): one space
inserted between directly adjacent sup tags. -/
def supSpace : List Char → List Char
  | '<' :: '/' :: 's' :: 'u' :: 'p' :: '>' :: '<' :: 's' :: 'u' :: 'p' :: '>' :: rest =>
    "</sup> <sup>".data ++ supSpace rest
  | c :: rest => c :: supSpace rest
  | [] => []

def process_citation_markers_in_html (s : String) : String :=
  String.mk (supSpace (citeScan replace_citation_html none s.data))

/-- The whitespace-collapse substitution of synthesize_with_gemini
(line 474): every run of two or more whitespace characters becomes a single
space; an isolated whitespace character is kept as it is. -/
def wsGo (fuel : Nat) (l : List Char) : List Char :=
  match fuel, l with
  | 0, _ => []
  | _ + 1, [] => []
  | fuel + 1, c :: rest =>
    if isPySpace c then
      match rest with
      | c2 :: _ =>
        if isPySpace c2 then ' ' :: wsGo fuel (rest.dropWhile isPySpace)
        else c :: wsGo fuel rest
      | [] => [c]
    else c :: wsGo fuel rest

def wsCollapse (l : List Char) : List Char := wsGo l.length l

/-- The post-render processing applied to html_answer inside
synthesize_with_gemini (lines 467-474): citation binding with the
trailing-space replacement, then whitespace collapse. -/
def synthesize_citation_html (s : String) : String :=
  String.mk (wsCollapse (citeScan citeAnchorSyn none s.data))

/- ### Paginated-document renderer: generate_pdf (src/app.py lines 573-652)

Only the HTML assembly is embedded (pisa.CreatePDF consumes the assembled
page verbatim).  A source dict is modelled with optional fields, matching
the defensive source.get(key, default) reads. -/

structure PdfSource where
  title : Option String
  url : Option String
  text_preview : Option String

/-- One character of Python html.escape (quote=True): the five markup
characters become entities.  html.escape applies sequential str.replace
calls starting with the ampersand, which is equivalent to this per-character
map. -/
def html_escape_char (c : Char) : List Char :=
  if c = '&' then "&amp;".data
  else if c = '<' then "&lt;".data
  else if c = '>' then "&gt;".data
  else if c = '"' then "&quot;".data
  else if c = Char.ofNat 39 then "&#x27;".data
  else [c]

def html_escape (s : String) : String :=
  String.mk ((s.data.map html_escape_char).flatten)

/-- One list item of source_list_html (lines 585-593): escaped title, url and
preview; the url line differs by depth (elif chain), and the preview
paragraph appears only for quick depth and a nonempty escaped preview. -/
def sourceItemHtml (research_depth : String) (i : Nat) (src : PdfSource) : String :=
  let title := html_escape (src.title.getD "Source Title Unavailable")
  let url := html_escape (src.url.getD "")
  let preview := html_escape (src.text_preview.getD "")
  "<li><span class=\"source-number\">[" ++ toString (i + 1) ++
    "]</span> <span class=\"source-title\">" ++ title ++ "</span>" ++
  (if research_depth = "deep" && url ≠ "" then
      " <a href=\"" ++ url ++ "\" class=\"source-url\">(" ++ url ++ ")</a>"
    else if research_depth = "quick" && url ≠ "" then
      "<br><a href=\"" ++ url ++ "\" class=\"source-url\">" ++ url ++ "</a>"
    else "") ++
  (if research_depth = "quick" && preview ≠ "" then
      "<p class=\"source-preview\">" ++ preview ++ "...</p>"
    else "") ++
  "</li>"

/-- The enumerated loop body of source_list_html, accumulating by string
concatenation. -/
def sourceItemsHtml (research_depth : String) (i : Nat) : List PdfSource → String
  | [] => ""
  | src :: rest => sourceItemHtml research_depth i src ++ sourceItemsHtml research_depth (i + 1) rest

def source_list_html (research_depth : String) (sources : List PdfSource) : String :=
  if sources.isEmpty then "<p>No sources were cited.</p>"
  else
    "<ul class=\"" ++ ("sources-list " ++
        (if research_depth = "deep" then "deep-list" else "quick-list")) ++ "\">" ++
      sourceItemsHtml research_depth 0 sources ++ "</ul>"

def sources_heading_text (research_depth : String) : String :=
  if research_depth = "deep" then "References" else "Sources Cited"

def pdfTpl1 : String :=
  "\n        <!DOCTYPE html><html><head><meta charset=\"UTF-8\"><title>Report: "

def pdfTpl2 : String :=
  "</title><style>\n            /* Base styles */\n            @page \x7b size: a4 portrait; margin: 2cm 1.5cm; @frame header_frame \x7b -pdf-frame-content: header_content; left: 1.5cm; width: 18cm; top: 1cm; height: 1cm; \x7d @frame footer_frame \x7b -pdf-frame-content: footer_content; left: 1.5cm; width: 18cm; top: 26.7cm; height: 1cm; \x7d \x7d\n            body \x7b font-family: Arial, Helvetica, sans-serif; font-size: 10pt; line-height: 1.4; color: #333; \x7d\n            #header_content, #footer_content \x7b font-size: 9pt; color: #777; \x7d #header_content \x7b text-align: left; \x7d #footer_content \x7b text-align: right; \x7d\n            h1.report-title \x7b font-size: 16pt; color: #2c3e50; margin-bottom: 5px; font-weight: bold; \x7d\n            h2.query-title \x7b font-size: 11pt; color: #555; font-weight: normal; margin-bottom: 20px; border-bottom: 1px solid #eee; padding-bottom: 10px; \x7d\n            /* Content Styles */\n            .answer-content h2 \x7b font-size: 14pt; color: #2c3e50; margin-top: 1.2em; margin-bottom: 0.6em; font-weight: bold; border-bottom: 1px solid #ccc; padding-bottom: 3px; \x7d\n            .answer-content h3 \x7b font-size: 12pt; color: #2c3e50; margin-top: 1em; margin-bottom: 0.5em; font-weight: bold; border-bottom: 1px solid #eee; padding-bottom: 2px; \x7d\n            .answer-content p \x7b margin-bottom: 0.8em; text-align: justify; \x7d\n            .answer-content ul, .answer-content ol \x7b margin-left: 20px; margin-bottom: 0.8em; \x7d .answer-content ul \x7b list-style-type: disc; \x7d .answer-content ol \x7b list-style-type: decimal; \x7d .answer-content li \x7b margin-bottom: 0.3em; \x7d\n            .answer-content a \x7b color: #0066cc; text-decoration: underline; \x7d\n            /* Citation Marker Style - Improved for PDF */\n            .answer-content sup \x7b display: inline-block; margin: 0 1px; \x7d\n            sup a.citation-marker \x7b\n                font-size: 0.8em;\n                vertical-align: super;\n                padding: 1px 2px;\n                margin: 0 1px;\n                color: #0066cc;\n                text-decoration: none;\n                background-color: #f0f0f0;\n                border-radius: 2px;\n                display: inline-block;\n            \x7d\n            /* Source List Styles */\n            h3.sources-heading \x7b font-size: 14pt; color: #2c3e50; margin-top: 25px; margin-bottom: 10px; border-bottom: 1px solid #ccc; padding-bottom: 5px; page-break-before: always; \x7d\n            ul.sources-list \x7b list-style-type: none; padding-left: 5px; margin-top: 0; \x7d\n            ul.sources-list li \x7b margin-bottom: 8px; font-size: 9pt; line-height: 1.3; \x7d\n            span.source-number \x7b font-weight: bold; margin-right: 5px; color: #111; \x7d span.source-title \x7b color: #333; font-weight: 600; \x7d\n            a.source-url \x7b color: #0066cc; text-decoration: none; font-size: 0.9em; word-break: break-all; \x7d\n            ul.quick-list li \x7b background-color: #f8f8f8; padding: 8px; border: 1px solid #eee; border-radius: 3px;\x7d\n            ul.quick-list a.source-url \x7b display: block; margin-top: 2px; \x7d\n            p.source-preview \x7b color: #555; font-size: 0.85em; margin-top: 5px; margin-bottom: 0; padding-left: 15px; border-left: 2px solid #ddd; max-height: 4.5em; overflow: hidden; \x7d\n            ul.deep-list li \x7b background-color: transparent; padding: 2px 0; border: none; \x7d\n            ul.deep-list a.source-url \x7b display: inline; margin-left: 5px; \x7d\n            ul.deep-list p.source-preview \x7b display: none; \x7d\n            </style></head><body>\n            <div id=\"header_content\">Research Report</div><div id=\"footer_content\">Page <pdf:pagenumber> of <pdf:pagecount></div>\n            <h1 class=\"report-title\">Research Report</h1><h2 class=\"query-title\">Query: "

def pdfTpl3 : String :=
  "</h2>\n            <div class=\"answer-content\">"

def pdfTpl4 : String :=
  "</div>\n            <h3 class=\"sources-heading\">"

def pdfTpl5 : String :=
  "</h3>\n            "

def pdfTpl6 : String :=
  "\n            </body></html>"

/-- The assembled page of generate_pdf: the f-string with its five holes, the
query escaped at both occurrences, the answer markup and the source list
embedded verbatim. -/
def generate_pdf_html (query : String) (answer_html_content : String)
    (sources : List PdfSource) (research_depth : String) : String :=
  pdfTpl1 ++ html_escape query ++ pdfTpl2 ++ html_escape query ++ pdfTpl3 ++
    answer_html_content ++ pdfTpl4 ++ sources_heading_text research_depth ++
    pdfTpl5 ++ source_list_html research_depth sources ++ pdfTpl6

/-- Number of occurrences of a character in a string. -/
def countChar (c : Char) (s : String) : Nat := s.data.count c

/-- The pairwise condition relating two source lists: same shape, with each
pair agreeing on the presence of url and preview. -/
def samePresence (a b : PdfSource) : Prop :=
  ((a.url.getD "" = "") = (b.url.getD "" = "")) ∧
  ((a.text_preview.getD "" = "") = (b.text_preview.getD "" = ""))

set_option maxRecDepth 10000

/- ### Helper lemmas about the aggregation loop -/

theorem mkText_length (n : Nat) : (mkText n).length = n := by
  simp [mkText, String.length]

/-- One loop iteration only ever appends to scraped_data. -/
theorem scrapeStep_scraped_append (scrape : String → Option String) (st : ScrapeState)
    (u : String) : ∃ t, (scrapeStep scrape st u).scraped_data = st.scraped_data ++ t := by
  unfold scrapeStep
  split
  · exact ⟨[], by simp⟩
  split
  · exact ⟨[], by simp⟩
  split
  · exact ⟨[], by simp⟩
  cases h : scrape u with
  | none => exact ⟨[], by simp⟩
  | some c => exact ⟨_, rfl⟩

/-- The whole loop only ever appends to scraped_data. -/
theorem foldl_scraped_append (scrape : String → Option String) (urls : List String) :
    ∀ st : ScrapeState, ∃ t,
      (urls.foldl (scrapeStep scrape) st).scraped_data = st.scraped_data ++ t := by
  induction urls with
  | nil => intro st; exact ⟨[], by simp⟩
  | cons u rest ih =>
    intro st
    obtain ⟨t1, h1⟩ := scrapeStep_scraped_append scrape st u
    obtain ⟨t2, h2⟩ := ih (scrapeStep scrape st u)
    exact ⟨t1 ++ t2, by simp [List.foldl_cons, h2, h1]⟩

/-- One loop iteration preserves the id-equals-position invariant. -/
theorem scrapeStep_ids (scrape : String → Option String) (st : ScrapeState) (u : String)
    (hst : st.scraped_data.map Source.id = List.range st.scraped_data.length) :
    (scrapeStep scrape st u).scraped_data.map Source.id =
      List.range (scrapeStep scrape st u).scraped_data.length := by
  unfold scrapeStep
  split
  · exact hst
  split
  · exact hst
  split
  · exact hst
  cases h : scrape u with
  | none => exact hst
  | some c => simp [hst, List.range_succ]

theorem foldl_ids (scrape : String → Option String) (urls : List String) :
    ∀ st : ScrapeState,
      st.scraped_data.map Source.id = List.range st.scraped_data.length →
      (urls.foldl (scrapeStep scrape) st).scraped_data.map Source.id =
        List.range (urls.foldl (scrapeStep scrape) st).scraped_data.length := by
  induction urls with
  | nil => intro st h; exact h
  | cons u rest ih => intro st h; exact ih _ (scrapeStep_ids scrape st u h)

/-- C1: Source indices produced by aggregation form the contiguous 0-based
sequence 0, 1, ..., in the order of successful extraction; processing further
urls only appends (no reassignment or reordering), and an url whose
extraction fails adds no Source and consumes no index. -/
theorem C1_source_indices (scrape : String → Option String) (urls more : List String)
    (st : ScrapeState) (u : String) (hfail : scrape u = none) :
    (scrape_urls scrape urls).map Source.id = List.range (scrape_urls scrape urls).length ∧
    (∃ t, scrape_urls scrape (urls ++ more) = scrape_urls scrape urls ++ t) ∧
    (scrapeStep scrape st u).scraped_data = st.scraped_data := by
  refine ⟨foldl_ids scrape urls initScrapeState (by simp [initScrapeState]), ?_, ?_⟩
  · obtain ⟨t, ht⟩ := foldl_scraped_append scrape more (urls.foldl (scrapeStep scrape) initScrapeState)
    exact ⟨t, by simpa [scrape_urls, scrape_urls_state, List.foldl_append] using ht⟩
  · unfold scrapeStep
    split
    · rfl
    split
    · rfl
    split
    · rfl
    simp [hfail]

theorem C1_source_indices_witness :
    ((fun _ => none : String → Option String) "x" = none) ∧
    ((scrape_urls (fun _ => none) ["x"]).map Source.id =
        List.range (scrape_urls (fun _ => none) ["x"]).length ∧
      (∃ t, scrape_urls (fun _ => none) (["x"] ++ ["y"]) = scrape_urls (fun _ => none) ["x"] ++ t) ∧
      (scrapeStep (fun _ => none) initScrapeState "x").scraped_data =
        initScrapeState.scraped_data) :=
  ⟨rfl, C1_source_indices (fun _ => none) ["x"] ["y"] initScrapeState "x" rfl⟩

/-- The loop keeps the running total below cap-plus-one-source: content is
only added after the cap check has passed. -/
theorem scrapeStep_total_bound (scrape : String → Option String) (st : ScrapeState) (u : String)
    (hcap : ∀ v c, scrape v = some c → c.length ≤ MAX_CONTENT_LENGTH_PER_SITE)
    (hlt : st.total_content_length < MAX_TOTAL_CONTENT_LENGTH + MAX_CONTENT_LENGTH_PER_SITE) :
    (scrapeStep scrape st u).total_content_length <
      MAX_TOTAL_CONTENT_LENGTH + MAX_CONTENT_LENGTH_PER_SITE := by
  unfold scrapeStep
  split
  · exact hlt
  split
  · exact hlt
  split
  · exact hlt
  next hnot =>
    cases h : scrape u with
    | none => exact hlt
    | some c =>
      have hc := hcap u c h
      have hlt2 : st.total_content_length < MAX_TOTAL_CONTENT_LENGTH := Nat.lt_of_not_le hnot
      simp only []
      omega

theorem foldl_total_bound (scrape : String → Option String) (urls : List String)
    (hcap : ∀ v c, scrape v = some c → c.length ≤ MAX_CONTENT_LENGTH_PER_SITE) :
    ∀ st : ScrapeState,
      st.total_content_length < MAX_TOTAL_CONTENT_LENGTH + MAX_CONTENT_LENGTH_PER_SITE →
      (urls.foldl (scrapeStep scrape) st).total_content_length <
        MAX_TOTAL_CONTENT_LENGTH + MAX_CONTENT_LENGTH_PER_SITE := by
  induction urls with
  | nil => intro st h; exact h
  | cons u rest ih => intro st h; exact ih _ (scrapeStep_total_bound scrape st u hcap h)

/-- C3 counterexample: fourteen urls each yielding 14999 characters (under
the 15000 per-source cap) drive the running total to 209986, above the
200000 total-content cap: the cap is checked before each extraction, so the
last accepted source overshoots it. -/
theorem C3_counterexample :
    (mkText 14999).length < MAX_CONTENT_LENGTH_PER_SITE ∧
    MAX_TOTAL_CONTENT_LENGTH <
      (scrape_urls_state (fun _ => some (mkText 14999))
        ["u01", "u02", "u03", "u04", "u05", "u06", "u07", "u08", "u09", "u10",
         "u11", "u12", "u13", "u14"]).total_content_length := by
  constructor
  · rw [mkText_length]; decide
  · norm_num [scrape_urls_state, scrapeStep, initScrapeState, mkText_length,
      MAX_TOTAL_CONTENT_LENGTH]

/-- C3 amended: when every extracted text respects the per-source cap, the
running total stays below the total cap plus one per-source cap (it can
overshoot the total cap by strictly less than one source), and once the
total cap has been reached an iteration adds no further source. -/
theorem C3_amended_total_bound (scrape : String → Option String) (urls : List String)
    (st : ScrapeState) (u : String)
    (hcap : ∀ v c, scrape v = some c → c.length ≤ MAX_CONTENT_LENGTH_PER_SITE)
    (hstop : MAX_TOTAL_CONTENT_LENGTH ≤ st.total_content_length) :
    (scrape_urls_state scrape urls).total_content_length <
      MAX_TOTAL_CONTENT_LENGTH + MAX_CONTENT_LENGTH_PER_SITE ∧
    (scrapeStep scrape st u).scraped_data = st.scraped_data := by
  constructor
  · exact foldl_total_bound scrape urls hcap initScrapeState (by decide)
  · unfold scrapeStep
    split
    · rfl
    split
    · rfl
    rfl

theorem C3_amended_total_bound_witness :
    (∀ v c, (fun _ => some "abc" : String → Option String) v = some c →
      c.length ≤ MAX_CONTENT_LENGTH_PER_SITE) ∧
    MAX_TOTAL_CONTENT_LENGTH ≤
      ({ scraped_data := [], total_content_length := 200000, urls_attempted := [],
         calls := [], stopped := false } : ScrapeState).total_content_length ∧
    ((scrape_urls_state (fun _ => some "abc") ["u"]).total_content_length <
        MAX_TOTAL_CONTENT_LENGTH + MAX_CONTENT_LENGTH_PER_SITE ∧
      (scrapeStep (fun _ => some "abc")
        { scraped_data := [], total_content_length := 200000, urls_attempted := [],
          calls := [], stopped := false } "u").scraped_data =
        ({ scraped_data := [], total_content_length := 200000, urls_attempted := [],
           calls := [], stopped := false } : ScrapeState).scraped_data) := by
  have hcap : ∀ v c, (fun _ => some "abc" : String → Option String) v = some c →
      c.length ≤ MAX_CONTENT_LENGTH_PER_SITE := by
    intro v c h
    cases h
    decide
  exact ⟨hcap, by decide,
    C3_amended_total_bound (fun _ => some "abc") ["u"] _ "u" hcap (by decide)⟩

/-- C4 bug evidence: on the input list with the same url twice and an
extractor that succeeds, the url is passed to scrape_url twice, two Sources
with that url are created, and the urls_attempted set stays empty: the
update urls_attempted.add(url) is written after continue on the same if
line, so it is dead code and no deduplication ever happens. -/
theorem C4_dedup_dead :
    (scrape_urls_state (fun _ => some (mkText 200)) ["a", "a"]).calls = ["a", "a"] ∧
    (scrape_urls (fun _ => some (mkText 200)) ["a", "a"]).map Source.url = ["a", "a"] ∧
    (scrape_urls_state (fun _ => some (mkText 200)) ["a", "a"]).urls_attempted = [] := by
  decide

theorem append_length_ne_zero (s t : String) (h : s.length ≠ 0) : (s ++ t).length ≠ 0 := by
  rw [String.length_append]
  omega

/-- C8: with a nonempty first chunk, deep synthesis never fails: a failed
first chunk fails the whole deep synthesis; failed second and third chunks
contribute nothing (the first chunk text alone is returned); and for any
outcome of the later chunks, the first chunk text is returned as a prefix of
the result rather than an overall failure. -/
theorem C8_deep_chunk_failures (t1 : String) (ht : t1.length ≠ 0) (r2 r3 : GenResponse) :
    synthesize_deep_raw GenResponse.bad r2 r3 =
      Except.error "Failed to generate deep research content" ∧
    synthesize_deep_raw (GenResponse.ok t1) GenResponse.bad GenResponse.bad = Except.ok t1 ∧
    (∃ tail, synthesize_deep_raw (GenResponse.ok t1) r2 r3 = Except.ok (t1 ++ tail)) := by
  refine ⟨rfl, ?_, ?_⟩
  · simp [synthesize_deep_raw, generate_chunked_deep_research, ht]
  · cases r2 with
    | bad =>
      cases r3 with
      | bad =>
        exact ⟨"", by simp [synthesize_deep_raw, generate_chunked_deep_research, ht]⟩
      | ok t3 =>
        refine ⟨"\n\n" ++ t3, ?_⟩
        simp only [synthesize_deep_raw, generate_chunked_deep_research, String.append_assoc]
        rw [if_neg (append_length_ne_zero _ _ ht)]
    | ok t2 =>
      cases r3 with
      | bad =>
        refine ⟨"\n\n" ++ t2, ?_⟩
        simp only [synthesize_deep_raw, generate_chunked_deep_research, String.append_assoc]
        rw [if_neg (append_length_ne_zero _ _ ht)]
      | ok t3 =>
        refine ⟨"\n\n" ++ t2 ++ ("\n\n" ++ t3), ?_⟩
        simp only [synthesize_deep_raw, generate_chunked_deep_research, String.append_assoc]
        rw [if_neg (append_length_ne_zero _ _ ht)]

theorem C8_deep_chunk_failures_witness :
    ("A".length ≠ 0) ∧
    (synthesize_deep_raw GenResponse.bad GenResponse.bad GenResponse.bad =
        Except.error "Failed to generate deep research content" ∧
      synthesize_deep_raw (GenResponse.ok "A") GenResponse.bad GenResponse.bad = Except.ok "A" ∧
      (∃ tail, synthesize_deep_raw (GenResponse.ok "A") GenResponse.bad GenResponse.bad =
        Except.ok ("A" ++ tail))) :=
  ⟨by decide, C8_deep_chunk_failures "A" (by decide) GenResponse.bad GenResponse.bad⟩

/-- C9: whenever the trafilatura step did not return (so the fallback fetch
runs) and the fetch outcome is a timeout, an HTTP error status, a non-HTML
content type or a payload above 7 MB, scrape_url returns absence. -/
theorem C9_extractor_absence (traf : Option String) (fetch : FetchResult)
    (h1 : trafAccepts traf = false) (h2 : fetchRejected fetch = true) :
    scrape_url traf fetch = none := by
  have hfb : bs4Fallback fetch = none := by
    cases fetch with
    | timeout => rfl
    | httpError s => rfl
    | reqError => simp [fetchRejected] at h2
    | ok ct body =>
      simp only [fetchRejected] at h2
      rw [Bool.or_eq_true] at h2
      cases h2 with
      | inl h =>
        have hc : containsHtml ct = false := by simpa using h
        simp [bs4Fallback, hc]
      | inr h =>
        have hs : 7000000 < body.size := of_decide_eq_true h
        by_cases hc : containsHtml ct
        · simp [bs4Fallback, hc, hs]
        · simp [bs4Fallback, hc]
  cases traf with
  | none => exact hfb
  | some mc =>
    have hlen : ¬ (100 < mc.length) := by simpa [trafAccepts] using h1
    simp [scrape_url, hlen, hfb]

theorem C9_extractor_absence_witness :
    trafAccepts none = false ∧ fetchRejected FetchResult.timeout = true ∧
    scrape_url none FetchResult.timeout = none :=
  ⟨rfl, rfl, C9_extractor_absence none FetchResult.timeout rfl rfl⟩

/- ### Helper lemmas about the citation scanners -/

theorem dropWhile_length_le (p : Char → Bool) (l : List Char) :
    (l.dropWhile p).length ≤ l.length := by
  induction l with
  | nil => simp
  | cons c rest ih =>
    by_cases h : p c = true
    · rw [List.dropWhile_cons, if_pos h]
      exact Nat.le_succ_of_le ih
    · rw [List.dropWhile_cons, if_neg h]

/-- takeWhile and dropWhile on a run of satisfying characters followed by a
non-satisfying one. -/
theorem takeWhile_run_append (p : Char → Bool) (ds : List Char) (c : Char) (rest : List Char)
    (h : ds.all p = true) (hc : p c = false) :
    (ds ++ c :: rest).takeWhile p = ds ∧ (ds ++ c :: rest).dropWhile p = c :: rest := by
  induction ds with
  | nil => simp [List.takeWhile_cons, List.dropWhile_cons, hc]
  | cons d ds ih =>
    simp only [List.all_cons, Bool.and_eq_true] at h
    obtain ⟨hd, hds⟩ := h
    obtain ⟨h1, h2⟩ := ih hds
    constructor
    · simp [List.takeWhile_cons, hd, h1]
    · simp [List.dropWhile_cons, hd, h2]

/-- The scan does not depend on the exact fuel value, as long as the fuel
covers the input length. -/
theorem citeGo_fuel_irrel (repl : List Char → List Char) :
    ∀ (n : Nat) (l : List Char), l.length ≤ n → ∀ (f1 f2 : Nat) (prev : Option Char),
      l.length ≤ f1 → l.length ≤ f2 → citeGo repl f1 prev l = citeGo repl f2 prev l := by
  intro n
  induction n with
  | zero =>
    intro l hl f1 f2 prev h1 h2
    have : l = [] := List.length_eq_zero.mp (Nat.le_zero.mp hl)
    subst this
    cases f1 <;> cases f2 <;> rfl
  | succ n ih =>
    intro l hl f1 f2 prev h1 h2
    cases l with
    | nil => cases f1 <;> cases f2 <;> rfl
    | cons c rest =>
      cases f1 with
      | zero => simp at h1
      | succ a =>
        cases f2 with
        | zero => simp at h2
        | succ b =>
          have hrn : rest.length ≤ n := by simp at hl; omega
          have hra : rest.length ≤ a := by simp at h1; omega
          have hrb : rest.length ≤ b := by simp at h2; omega
          have hdwt := dropWhile_length_le Char.isDigit rest
          have hlt := List.length_tail (rest.dropWhile Char.isDigit)
          have hr2n : (rest.dropWhile Char.isDigit).tail.length ≤ n := by omega
          have hr2a : (rest.dropWhile Char.isDigit).tail.length ≤ a := by omega
          have hr2b : (rest.dropWhile Char.isDigit).tail.length ≤ b := by omega
          simp only [citeGo]
          by_cases hcond : (c = '[' && lookbehindOk prev) = true
          · rw [if_pos hcond, if_pos hcond]
            by_cases hde : (rest.takeWhile Char.isDigit).isEmpty = true
            · simp only [hde, if_true]
              exact congrArg (c :: ·) (ih rest hrn a b (some c) hra hrb)
            · simp only [Bool.not_eq_true] at hde
              simp only [hde, Bool.false_eq_true, if_false]
              by_cases hh1 : ((rest.dropWhile Char.isDigit).head? == some ']') = true
              · simp only [hh1, if_true]
                by_cases hh2 : ((rest.dropWhile Char.isDigit).tail.head? == some ']') = true
                · simp only [hh2, if_true]
                  exact congrArg (c :: ·) (ih rest hrn a b (some c) hra hrb)
                · simp only [Bool.not_eq_true] at hh2
                  simp only [hh2, Bool.false_eq_true, if_false]
                  exact congrArg (repl (rest.takeWhile Char.isDigit) ++ ·)
                    (ih _ hr2n a b (some ']') hr2a hr2b)
              · simp only [Bool.not_eq_true] at hh1
                simp only [hh1, Bool.false_eq_true, if_false]
                exact congrArg (c :: ·) (ih rest hrn a b (some c) hra hrb)
          · rw [if_neg hcond, if_neg hcond]
            exact congrArg (c :: ·) (ih rest hrn a b (some c) hra hrb)

/-- A standalone marker is rewritten: whenever the scan is at an opening
bracket whose preceding original character passes the lookbehind, with a
nonempty digit run, a closing bracket, and no second closing bracket after
it, the scan emits the replacement of the digit group and resumes after the
marker with prev = the closing bracket. -/
theorem citeScan_marker (repl : List Char → List Char) (prev : Option Char) (ds rest : List Char)
    (hlb : lookbehindOk prev = true) (hne : ds ≠ []) (hdig : ds.all Char.isDigit = true)
    (hla : rest.head? ≠ some ']') :
    citeScan repl prev ('[' :: (ds ++ ']' :: rest)) = repl ds ++ citeScan repl (some ']') rest := by
  obtain ⟨htw, hdw⟩ := takeWhile_run_append Char.isDigit ds ']' rest hdig (by decide)
  unfold citeScan
  rw [List.length_cons]
  simp only [citeGo, htw, hdw]
  rw [if_pos (by simp [hlb])]
  rw [if_neg (fun h => hne (List.isEmpty_iff.mp h))]
  rw [if_pos (by simp)]
  simp only [List.tail_cons]
  rw [if_neg (fun h => hla (by simpa using h))]
  refine congrArg (repl ds ++ ·) ?_
  exact citeGo_fuel_irrel repl ((ds ++ ']' :: rest).length) rest
    (by simp [List.length_append]; omega) _ _ (some ']')
    (by simp [List.length_append]; omega) (Nat.le_refl _)

/-- C2: the post-render binding pass rewrites a standalone numeric bracket
marker (lookbehind not an exclamation mark, closing bracket, slash or
alphanumeric; not followed by another closing bracket) into the superscript
anchor of its number, and the zero-based citation index carried by an anchor
for displayed number n is exactly n - 1. -/
theorem C2_post_render_binding (prev : Option Char) (ds rest : List Char)
    (hlb : lookbehindOk prev = true) (hne : ds ≠ []) (hdig : ds.all Char.isDigit = true)
    (hla : rest.head? ≠ some ']') :
    citeScan replace_citation_html prev ('[' :: (ds ++ ']' :: rest)) =
      citeAnchorNum (digitsVal ds) ++ citeScan replace_citation_html (some ']') rest ∧
    citeIndexOf (digitsVal ds) = (digitsVal ds : Int) - 1 :=
  ⟨citeScan_marker replace_citation_html prev ds rest hlb hne hdig hla, rfl⟩

theorem C2_post_render_binding_witness :
    lookbehindOk none = true ∧ (['2'] : List Char) ≠ [] ∧
    (['2'].all Char.isDigit = true) ∧ (([' ', 'x'] : List Char).head? ≠ some ']') ∧
    (citeScan replace_citation_html none ('[' :: (['2'] ++ ']' :: [' ', 'x'])) =
        citeAnchorNum (digitsVal ['2']) ++ citeScan replace_citation_html (some ']') [' ', 'x'] ∧
      citeIndexOf (digitsVal ['2']) = (digitsVal ['2'] : Int) - 1) :=
  ⟨rfl, by decide, by decide, by decide,
    C2_post_render_binding none ['2'] [' ', 'x'] rfl (by decide) (by decide) (by decide)⟩

/-- C5 counterexample: the pre-render pass joins the pieces of a comma group
with a single space, so [2,5] becomes "[2] [5]" and not "[2][5]"; and the
post-render pass applied to the directly adjacent markers [1][2] produces
only one anchor, leaving [2] as inert text, because the lookbehind of the
pattern excludes a position right after a closing bracket. -/
theorem C5_counterexample :
    preprocess_llm_text_for_citations "[2,5]" ≠ "[2][5]" ∧
    process_citation_markers_in_html "[1][2]" =
      "<sup><a href='#' class='citation-marker' data-citation-index='0' aria-label='Citation 1'>[1]</a></sup>[2]" := by
  constructor
  · decide
  · decide

/-- C5 amended: the pre-render pass yields "[2] [5]" from "[2,5]" (adjacent
markers separated by one space, not directly adjacent); it also rewrites
"[1][2]" to "[1] [2]", and the post-render pass applied to that
space-separated form yields two separate anchors with a single space
between them. -/
theorem C5_amended :
    preprocess_llm_text_for_citations "[2,5]" = "[2] [5]" ∧
    preprocess_llm_text_for_citations "[1][2]" = "[1] [2]" ∧
    synthesize_citation_html "[1] [2]" =
      "<sup><a href='#' class='citation-marker' data-citation-index='0' aria-label='Citation 1'>[1]</a></sup> <sup><a href='#' class='citation-marker' data-citation-index='1' aria-label='Citation 2'>[2]</a></sup> " := by
  refine ⟨by decide, by decide, by decide⟩

/-- C6 counterexample: the pre-render normalization is not idempotent: on
"[1][2][3]" one application gives "[1] [2][3]" (the adjacent-marker pattern
matches non-overlapping pairs only), and a second application changes the
text again. -/
theorem C6_counterexample :
    preprocess_llm_text_for_citations (preprocess_llm_text_for_citations "[1][2][3]") ≠
      preprocess_llm_text_for_citations "[1][2][3]" := by
  decide

/-- C6 amended: adjacent-marker spacing is inserted for non-overlapping
pairs per application, so a run of three adjacent markers needs two
applications to stabilize: "[1][2][3]" gives "[1] [2][3]", a second
application gives "[1] [2] [3]", and that text is a fixed point of the
normalization. -/
theorem C6_amended :
    preprocess_llm_text_for_citations "[1][2][3]" = "[1] [2][3]" ∧
    preprocess_llm_text_for_citations "[1] [2][3]" = "[1] [2] [3]" ∧
    preprocess_llm_text_for_citations "[1] [2] [3]" = "[1] [2] [3]" := by
  refine ⟨by decide, by decide, by decide⟩

/-- C7 counterexample: with a single source, the marker [7] is outside the
valid range 1..1, yet the post-render pass does not leave it as inert text:
it becomes a citation anchor with index 6. -/
theorem C7_counterexample :
    ¬ (7 ≤ 1) ∧
    process_citation_markers_in_html "[7]" ≠ "[7]" ∧
    process_citation_markers_in_html "[7]" =
      "<sup><a href='#' class='citation-marker' data-citation-index='6' aria-label='Citation 7'>[7]</a></sup>" := by
  refine ⟨by decide, by decide, by decide⟩

/-- C7 amended: a marker whose number is outside the range of valid source
numbers is still rewritten into an anchor rather than left inert, and
rendering does not fail: for every source count k the marker [0] has no
valid source (1 is never at most 0), yet the pass turns it into an anchor
carrying the out-of-range zero-based index -1. -/
theorem C7_amended :
    (∀ k : Nat, ¬ (1 ≤ 0 ∧ 0 ≤ k)) ∧
    synthesize_citation_html "[0]" =
      "<sup><a href='#' class='citation-marker' data-citation-index='-1' aria-label='Citation 0'>[0]</a></sup> " ∧
    synthesize_citation_html "[0]" ≠ "[0]" := by
  refine ⟨fun k h => by omega, by decide, by decide⟩

/- ### Helper lemmas for the paginated renderer -/

theorem countChar_append (x : Char) (a b : String) :
    countChar x (a ++ b) = countChar x a + countChar x b := by
  simp [countChar, String.data_append, List.count_append]

theorem html_escape_char_count (c x : Char)
    (hx : x = '<' ∨ x = '>' ∨ x = '"' ∨ x = Char.ofNat 39) :
    (html_escape_char c).count x = 0 := by
  unfold html_escape_char
  split_ifs with h1 h2 h3 h4 h5
  · rcases hx with h | h | h | h <;> subst h <;> decide
  · rcases hx with h | h | h | h <;> subst h <;> decide
  · rcases hx with h | h | h | h <;> subst h <;> decide
  · rcases hx with h | h | h | h <;> subst h <;> decide
  · rcases hx with h | h | h | h <;> subst h <;> decide
  · rcases hx with h | h | h | h <;> subst h <;>
      simp_all [List.count_cons, List.count_nil]

theorem html_escape_count_zero (x : Char)
    (hx : x = '<' ∨ x = '>' ∨ x = '"' ∨ x = Char.ofNat 39) (s : String) :
    countChar x (html_escape s) = 0 := by
  obtain ⟨l⟩ := s
  show ((l.map html_escape_char).flatten).count x = 0
  induction l with
  | nil => rfl
  | cons c rest ih =>
    simp [List.count_append, html_escape_char_count c x hx, ih]

theorem html_escape_char_ne_nil (c : Char) : html_escape_char c ≠ [] := by
  unfold html_escape_char
  split_ifs <;> simp

theorem html_escape_eq_empty (s : String) : html_escape s = "" ↔ s = "" := by
  rw [String.ext_iff, String.ext_iff]
  obtain ⟨l⟩ := s
  show (l.map html_escape_char).flatten = ([] : List Char) ↔ l = []
  cases l with
  | nil => simp
  | cons c rest =>
    simp only [List.map_cons, List.flatten_cons]
    constructor
    · intro h
      exact absurd (List.append_eq_nil.mp h).1 (html_escape_char_ne_nil c)
    · intro h
      cases h

/-- The tag-character count of one rendered source item does not depend on
the contents of its title, url or preview, only on the depth, the position
and the presence (nonemptiness) of url and preview. -/
theorem sourceItemHtml_count (x : Char) (hx : x = '<' ∨ x = '>') (d : String) (i : Nat)
    (a b : PdfSource)
    (hu : (a.url.getD "" = "") = (b.url.getD "" = ""))
    (hp : (a.text_preview.getD "" = "") = (b.text_preview.getD "" = "")) :
    countChar x (sourceItemHtml d i a) = countChar x (sourceItemHtml d i b) := by
  have hx4 : x = '<' ∨ x = '>' ∨ x = '"' ∨ x = Char.ofNat 39 :=
    Or.elim hx (fun h => Or.inl h) (fun h => Or.inr (Or.inl h))
  have hu2 : (html_escape (a.url.getD "") = "") = (html_escape (b.url.getD "") = "") := by
    rw [html_escape_eq_empty, html_escape_eq_empty]
    exact hu
  have hp2 : (html_escape (a.text_preview.getD "") = "") =
      (html_escape (b.text_preview.getD "") = "") := by
    rw [html_escape_eq_empty, html_escape_eq_empty]
    exact hp
  unfold sourceItemHtml
  by_cases h3 : html_escape (a.url.getD "") = "" <;>
  by_cases h4 : html_escape (a.text_preview.getD "") = "" <;>
  by_cases hd : d = "deep" <;> by_cases hq : d = "quick" <;>
  · have h3b := hu2 ▸ h3
    have h4b := hp2 ▸ h4
    simp_all [countChar_append, html_escape_count_zero x hx4]


theorem sourceItemsHtml_count (x : Char) (hx : x = '<' ∨ x = '>') (d : String) :
    ∀ (i : Nat) (s1 s2 : List PdfSource), List.Forall₂ samePresence s1 s2 →
      countChar x (sourceItemsHtml d i s1) = countChar x (sourceItemsHtml d i s2) := by
  intro i s1 s2 h
  induction h generalizing i with
  | nil => rfl
  | cons hab htail ih =>
    simp only [sourceItemsHtml, countChar_append]
    rw [sourceItemHtml_count x hx d i _ _ hab.1 hab.2, ih (i + 1)]

/-- C10: the page assembled by generate_pdf escapes the query, every source
title, url and text preview: the number of markup delimiter characters in
the page does not depend on the contents of those fields at all (two reports
differing only in them produce pages with identical counts of the
characters opening and closing tags), so markup characters inside scraped
fields appear as inert escaped text and cannot add structure to the
document. -/
theorem C10_pdf_field_escaping (q1 q2 answer d : String) (s1 s2 : List PdfSource)
    (hs : List.Forall₂ samePresence s1 s2) :
    countChar '<' (generate_pdf_html q1 answer s1 d) =
      countChar '<' (generate_pdf_html q2 answer s2 d) ∧
    countChar '>' (generate_pdf_html q1 answer s1 d) =
      countChar '>' (generate_pdf_html q2 answer s2 d) := by
  have key : ∀ x : Char, (x = '<' ∨ x = '>') →
      countChar x (generate_pdf_html q1 answer s1 d) =
        countChar x (generate_pdf_html q2 answer s2 d) := by
    intro x hx
    have hx4 : x = '<' ∨ x = '>' ∨ x = '"' ∨ x = Char.ofNat 39 :=
      Or.elim hx (fun h => Or.inl h) (fun h => Or.inr (Or.inl h))
    have hlist : countChar x (source_list_html d s1) = countChar x (source_list_html d s2) := by
      unfold source_list_html
      cases hs with
      | nil => rfl
      | cons hab htail =>
        simp only [List.isEmpty_cons, Bool.false_eq_true, if_false, countChar_append]
        rw [sourceItemsHtml_count x hx d 0 _ _ (List.Forall₂.cons hab htail)]
    unfold generate_pdf_html
    simp only [countChar_append, html_escape_count_zero x hx4, hlist]
  exact ⟨key '<' (Or.inl rfl), key '>' (Or.inr rfl)⟩

theorem C10_pdf_field_escaping_witness :
    List.Forall₂ samePresence
      [{ title := some "<b>title", url := some "http://e/?a=<1>", text_preview := some "pv<" }]
      [{ title := some "t", url := some "u", text_preview := some "p" }] ∧
    (countChar '<' (generate_pdf_html "<script>alert(1)</script>" "<p>hi</p>"
          [{ title := some "<b>title", url := some "http://e/?a=<1>", text_preview := some "pv<" }]
          "quick") =
        countChar '<' (generate_pdf_html "x" "<p>hi</p>"
          [{ title := some "t", url := some "u", text_preview := some "p" }] "quick") ∧
      countChar '>' (generate_pdf_html "<script>alert(1)</script>" "<p>hi</p>"
          [{ title := some "<b>title", url := some "http://e/?a=<1>", text_preview := some "pv<" }]
          "quick") =
        countChar '>' (generate_pdf_html "x" "<p>hi</p>"
          [{ title := some "t", url := some "u", text_preview := some "p" }] "quick")) := by
  have hf : List.Forall₂ samePresence
      [{ title := some "<b>title", url := some "http://e/?a=<1>", text_preview := some "pv<" }]
      [({ title := some "t", url := some "u", text_preview := some "p" } : PdfSource)] :=
    List.Forall₂.cons (by constructor <;> simp [samePresence]) List.Forall₂.nil
  exact ⟨hf, C10_pdf_field_escaping "<script>alert(1)</script>" "x" "<p>hi</p>" "quick" _ _ hf⟩
